import Mathlib

/-!
Verification of the natural-language specification of
`src/scripts/analyze-terraform-plan.py` against a shallow embedding of the
script.

Modelling conventions:
* Python strings are lists of Unicode code points (`PyStr := List Char`);
  Python `len` is `List.length`, `+` on strings is `++`, and slicing is
  `take`/`drop`.
* JSON values returned by `response.json()` are the inductive `JVal`
  (number fields are integers; floats do not occur in any claim).
* A Python expression that may raise an uncaught exception is embedded as an
  `Option` value, with `none` standing for the raised exception.
* External effects (the `terraform` subprocess, the HTTP POST, the `date`
  subprocess) are oracle parameters of the functions that perform them.
-/

/-- Python strings as lists of code points. -/
abbrev PyStr := List Char

/-- Code-point list of a string literal. -/
def lit (s : String) : PyStr := s.toList

/-- JSON values as produced by `response.json()`.  JSON numbers are modelled
as integers; no claim involves numeric response fields. -/
inductive JVal where
  | jstr : PyStr → JVal
  | jnum : Int → JVal
  | jbool : Bool → JVal
  | jnull : JVal
  | jarr : List JVal → JVal
  | jobj : List (PyStr × JVal) → JVal

/-- Python truthiness test (`not x`) on JSON values: empty containers, empty
strings, zero, `False` and `None` are falsy. -/
def jFalsy : JVal → Bool
  | .jstr s => s.isEmpty
  | .jnum n => n == 0
  | .jbool b => !b
  | .jnull => true
  | .jarr l => l.isEmpty
  | .jobj d => d.isEmpty

/-- Python substring test `needle in hay` on strings. -/
def pyInStr (needle hay : PyStr) : Bool :=
  hay.tails.any (fun t => needle.isPrefixOf t)

/-- Python `str.lower()`.  `Char.toLower` lowers only ASCII letters; every
keyword the script compares against is ASCII. -/
def pyLower (s : PyStr) : PyStr := s.map Char.toLower

/-- The apostrophe character used by Python `repr` of strings. -/
def reprQuote : Char := Char.ofNat 39

/-- Opening brace printed by Python `str` of a dict. -/
def braceL : Char := Char.ofNat 123

/-- Closing brace printed by Python `str` of a dict. -/
def braceR : Char := Char.ofNat 125

mutual

/-- Python `repr` of a JSON value (string escaping inside the quotes is not
modelled; no theorem evaluates `repr` of a string containing quotes). -/
def pyRepr : JVal → PyStr
  | .jstr s => reprQuote :: (s ++ [reprQuote])
  | .jnum n => lit (toString n)
  | .jbool b => if b then lit "True" else lit "False"
  | .jnull => lit "None"
  | .jarr l => '[' :: (pyReprSeq l ++ [']'])
  | .jobj d => braceL :: (pyReprPairs d ++ [braceR])

/-- Comma-separated `repr`s of list elements. -/
def pyReprSeq : List JVal → PyStr
  | [] => []
  | [v] => pyRepr v
  | v :: rest => pyRepr v ++ lit ", " ++ pyReprSeq rest

/-- Comma-separated `repr`s of dict entries. -/
def pyReprPairs : List (PyStr × JVal) → PyStr
  | [] => []
  | [(k, v)] => reprQuote :: (k ++ [reprQuote]) ++ lit ": " ++ pyRepr v
  | (k, v) :: rest =>
      reprQuote :: (k ++ [reprQuote]) ++ lit ": " ++ pyRepr v
        ++ lit ", " ++ pyReprPairs rest

end

/-- Python `str` of a JSON value: strings unchanged, containers via `repr`. -/
def pyStrOf : JVal → PyStr
  | .jstr s => s
  | v => pyRepr v

/-- Python `key in v` for the value shapes `response.json()` can produce.
`none` models the `TypeError` raised by `in` on a number, boolean or `None`.
List membership compares only against string elements, since Python `==`
between a string and a non-string JSON value is `False`. -/
def pyContains (v : JVal) (key : PyStr) : Option Bool :=
  match v with
  | .jobj d => some (d.any (fun kv => kv.1 == key))
  | .jarr l => some (l.any (fun x => match x with | .jstr s => s == key | _ => false))
  | .jstr s => some (pyInStr key s)
  | _ => none

/-- Python subscript `v[key]` with a string key.  `none` models the raised
exception: `KeyError` when the key is absent from a dict, `TypeError` for a
string index into a list or string, or any subscript of a scalar. -/
def pySubscriptStr (v : JVal) (key : PyStr) : Option JVal :=
  match v with
  | .jobj d => (d.find? (fun kv => kv.1 == key)).map (fun kv => kv.2)
  | _ => none

/-- Python subscript `v[0]`.  `none` models the raised exception: `IndexError`
on an empty list or string, `KeyError` on a dict (the script only builds dicts
with string keys), `TypeError` on scalars. -/
def pySubscript0 (v : JVal) : Option JVal :=
  match v with
  | .jarr (x :: _) => some x
  | .jstr (c :: _) => some (.jstr [c])
  | _ => none

/-- Python `v.get(key, default)`.  `none` models the `AttributeError` raised
when `v` is not a dict. -/
def pyGetD (v : JVal) (key : PyStr) (dflt : JVal) : Option JVal :=
  match v with
  | .jobj d => some ((((d.find? (fun kv => kv.1 == key)).map (fun kv => kv.2))).getD dflt)
  | _ => none

/-- Python `s.rstrip(sep)` specialised to `'/'`: remove every trailing slash. -/
def pyRstripSlash (s : PyStr) : PyStr :=
  (s.reverse.dropWhile (fun c => c == '/')).reverse

/-- Python slice `s[:k]` where `k` may be negative (a negative bound counts
from the end of the string, clamped at zero). -/
def pySliceTo (s : PyStr) (k : Int) : PyStr :=
  if 0 ≤ k then s.take k.toNat else s.take ((s.length : Int) + k).toNat

/-- One scan step of Python `str.replace` for a non-empty pattern: at each
position, either the pattern matches (it is replaced and the scan resumes
after it) or the scan advances one character.  The fuel argument bounds the
number of scan steps; `pyReplace` supplies `s.length`, which always
suffices. -/
def replaceGo (old new : PyStr) : Nat → PyStr → PyStr
  | _, [] => []
  | 0, s => s
  | fuel + 1, c :: rest =>
      if old.isPrefixOf (c :: rest) then
        new ++ replaceGo old new fuel (rest.drop (old.length - 1))
      else
        c :: replaceGo old new fuel rest

/-- Python `s.replace(old, new)`: replace every non-overlapping occurrence of
`old`, scanning left to right.  For an empty `old`, Python inserts `new`
before every character and at the end. -/
def pyReplace (s old new : PyStr) : PyStr :=
  if old.isEmpty then new ++ s.foldr (fun ch acc => ch :: (new ++ acc)) []
  else replaceGo old new s.length s

/-! ## Constants and functions of `analyze-terraform-plan.py` -/

/-- The `system_prompt` literal of `analyze_plan_with_azure_openai`. -/
def SYSTEM_PROMPT : PyStr := lit "You are a Terraform infrastructure expert and security analyst. \nAnalyze the provided Terraform plan and provide insights on:\n\n1. SECURITY ANALYSIS:\n   - Security vulnerabilities or misconfigurations\n   - Network security recommendations\n   - Access control issues\n   - Password/secrets management concerns\n\n2. COST OPTIMIZATION:\n   - Resource sizing recommendations\n   - Cost-saving opportunities\n   - Over-provisioned resources\n\n3. BEST PRACTICES:\n   - Terraform best practices violations\n   - Azure-specific recommendations\n   - Resource naming and tagging\n\n4. RISK ASSESSMENT:\n   - High-risk changes\n   - Potential downtime or service disruption\n   - Dependencies and impact analysis\n\n5. RECOMMENDATIONS:\n   - Specific actionable improvements\n   - Alternative approaches\n   - Future considerations\n\nFormat your response in clear sections with bullet points. Be concise but thorough.\nFocus on actionable insights that would help in a DevOps pipeline review. Keep response under 3500 characters for file output. Use plain text format only - no markdown formatting."

/-- The part of the `user_prompt` f-string before `{plan_text}`. -/
def USER_PRE : PyStr := lit "Please analyze this Terraform plan for Azure infrastructure deployment:\n\n```\n"

/-- The part of the `user_prompt` f-string after `{plan_text}`. -/
def USER_POST : PyStr := lit "\n```\n\nProvide your analysis following the structure requested in the system prompt."

/-- The `url` binding of `analyze_plan_with_azure_openai`: an f-string with no
placeholders, hence a string constant. -/
def REQUEST_URL : PyStr := lit "https://tf-open-ai.openai.azure.com/openai/deployments/gpt-4/chat/completions?api-version=2025-01-01-preview"

/-- One role-tagged chat message of the request payload. -/
structure ChatMessage where
  role : PyStr
  content : PyStr

/-- The HTTP request assembled by `analyze_plan_with_azure_openai`: target
URL, headers, ordered message list and generation parameters. -/
structure ChatRequest where
  url : PyStr
  headers : List (PyStr × PyStr)
  messages : List ChatMessage
  max_tokens : Nat
  temperature : Rat

/-- The request `analyze_plan_with_azure_openai` builds before posting:
`headers`, `payload` and `url` from the source, lines 74-89. -/
def build_request (plan_text api_key endpoint deployment_name api_version : PyStr) :
    ChatRequest :=
  { url := REQUEST_URL
    headers := [(lit "api-key", api_key), (lit "Content-Type", lit "application/json")]
    messages :=
      [ { role := lit "system", content := SYSTEM_PROMPT }
      , { role := lit "user", content := USER_PRE ++ plan_text ++ USER_POST } ]
    max_tokens := 1500
    temperature := 1 / 10 }

/-- Oracle for the outcome of `requests.post`: either the call raises a
`requests.exceptions.RequestException` (network error, timeout, too many
redirects), or a response arrives with a final status code and a body that
parses as JSON (`some v`) or does not (`none`). -/
inductive HttpOutcome where
  | exn : HttpOutcome
  | response : Nat → Option JVal → HttpOutcome

/-- Result of `analyze_plan_with_azure_openai` as a function of the HTTP
outcome, source lines 91-105.  A raised `RequestException` is caught and
yields `{}`; `raise_for_status` raises exactly for status 400-599 and that
`HTTPError` is caught; an unparseable body makes `response.json()` raise
`requests.exceptions.JSONDecodeError`, a `RequestException` subclass
(requests ≥ 2.27), which the same handler catches.  The function is total:
no exception escapes it. -/
def analyze_plan_with_azure_openai
    (plan_text api_key endpoint deployment_name api_version : PyStr)
    (outcome : HttpOutcome) : JVal :=
  let _req := build_request plan_text api_key endpoint deployment_name api_version
  match outcome with
  | .exn => .jobj []
  | .response status body =>
      if 400 ≤ status ∧ status ≤ 599 then .jobj []
      else match body with
           | some v => v
           | none => .jobj []

/-- The failure-marker string returned by `format_analysis_output`. -/
def FAIL_MARKER : PyStr := lit "‚ùå Failed to get analysis from Azure OpenAI"

/-- The banner removed by `save_analysis_to_file` (also the text inserted,
after a leading newline, by `format_analysis_output`).  The `\uF8FF` escape
is the private-use code point present in the source bytes between the
closing bracket and the mojibake emoji. -/
def BANNER : PyStr := lit "##[section]\uF8FFü§ñ AI-Powered Terraform Plan Analysis\n\n"

/-- The footer removed by `save_analysis_to_file` (also the closing text of
`format_analysis_output`).  The `\uF8FF` escape is the private-use code
point present in the source bytes before the mojibake emoji. -/
def FOOTER : PyStr := lit "\n\n---\n\uF8FFüí° Analysis completed using Azure OpenAI Service\n‚ö†Ô∏è  Please review recommendations carefully before deployment\n"

/-- The nested access `analysis_response['choices'][0]['message']['content']`
of source line 113, with `none` for a raised exception at any step. -/
def choices_content_path (resp : JVal) : Option JVal :=
  (pySubscriptStr resp (lit "choices")).bind fun cs =>
    (pySubscript0 cs).bind fun c0 =>
      (pySubscriptStr c0 (lit "message")).bind fun m =>
        pySubscriptStr m (lit "content")

/-- Function `format_analysis_output`, source lines 107-126.  The result is `none`
when the function raises (the guard only checks truthiness and the presence
of the `choices` key before subscripting).  The f-string wraps the content
between a leading newline plus banner and the footer. -/
def format_analysis_output (resp : JVal) : Option PyStr :=
  if jFalsy resp then some FAIL_MARKER
  else
    match pyContains resp (lit "choices") with
    | none => none
    | some false => some FAIL_MARKER
    | some true =>
        match choices_content_path resp with
        | none => none
        | some v => some ('\n' :: (BANNER ++ pyStrOf v ++ FOOTER))

/-- Banner/footer stripping of `save_analysis_to_file`, source lines 131-133. -/
def strip_formatting (analysis : PyStr) : PyStr :=
  pyReplace (pyReplace analysis BANNER []) FOOTER []

/-- The timestamped header of `save_analysis_to_file`; `dateOut` is the
already-stripped stdout of the `date` subprocess (an oracle). -/
def mk_header (dateOut : PyStr) : PyStr :=
  lit "Terraform Plan Analysis\n\nGenerated: " ++ dateOut ++ lit "\n\n"

/-- The truncation notice appended by `save_analysis_to_file`. -/
def TRUNC_NOTICE : PyStr := lit "\n\n[Content truncated to fit 4000 character limit]"

/-- The full text written by `save_analysis_to_file` (header write followed by
content write), source lines 131-144.  File-system errors are caught by the
function and do not alter the content computed here. -/
def save_analysis_content (analysis dateOut : PyStr) : PyStr :=
  let plain := strip_formatting analysis
  let header := mk_header dateOut
  let maxContentLength : Int := 4000 - (header.length : Int)
  let plain' :=
    if (plain.length : Int) > maxContentLength then
      pySliceTo plain (maxContentLength - 50) ++ TRUNC_NOTICE
    else plain
  header ++ plain'

/-- The marker appended when `main` truncates an over-long plan. -/
def TRUNC_MARKER : PyStr := lit "\n... (truncated for analysis)"

/-- Plan-text truncation of `main`, source lines 185-188: the forwarded text
and whether the truncation warning was printed. -/
def main_truncate (plan_text : PyStr) : PyStr × Bool :=
  if plan_text.length > 10000 then (plan_text.take 10000 ++ TRUNC_MARKER, true)
  else (plan_text, false)

/-- Endpoint normalisation of `main`, source lines 169-173. -/
def normalize_endpoint (endpoint : PyStr) : PyStr :=
  let e := if (lit "https://").isPrefixOf endpoint then endpoint
           else lit "https://" ++ endpoint
  if (lit "/").isSuffixOf e then pyRstripSlash e else e

/-- Truthiness of an `os.getenv` result (`if not api_key`): `None` and the
empty string are falsy. -/
def pyTruthyOpt : Option PyStr → Bool
  | none => false
  | some s => !s.isEmpty

/-- The keyword list of `main`, source line 207. -/
def CRITICAL_KEYWORDS : List PyStr :=
  [lit "critical", lit "severe", lit "high risk", lit "security vulnerability", lit "exposed"]

/-- The critical-issue scan of `main`, source lines 205-208: lower-case the
content and test each keyword for substring membership. -/
def critical_check (content : PyStr) : Bool :=
  CRITICAL_KEYWORDS.any (fun k => pyInStr k (pyLower content))

/-- The defaulted access chain of source line 205 up to (and including) the
`.lower()` call receiver check: `none` models the exception raised when a
`.get` receiver is not a dict, `[0]` fails, or `.lower()` is called on a
non-string. -/
def main_content_text (resp : JVal) : Option PyStr :=
  (pyGetD resp (lit "choices") (.jarr [.jobj []])).bind fun cs =>
    (pySubscript0 cs).bind fun c0 =>
      (pyGetD c0 (lit "message") (.jobj [])).bind fun m =>
        (pyGetD m (lit "content") (.jstr [])).bind fun ct =>
          match ct with
          | .jstr s => some s
          | _ => none

/-- Observable outcome of one `main` run: the value returned to `sys.exit`
(`none` when an uncaught exception terminates the interpreter instead),
whether the `terraform` subprocess was invoked, whether the HTTP POST was
issued, the content written to the artifact file (when that point was
reached), and whether the critical-issue warning line was printed. -/
structure MainResult where
  exitCode : Option Nat
  planRequested : Bool
  httpRequested : Bool
  saved : Option PyStr
  criticalWarned : Bool
deriving DecidableEq

/-- Function `main`, source lines 149-212, as a function of the environment
(`api_key`, `endpoint`, `deployment_name`, `api_version` as `os.getenv`
results), the `terraform show` stdout oracle (`none` when the subprocess
exits non-zero, making `get_terraform_plan_text` return `""`), the HTTP
outcome oracle, and the `date` stdout oracle. -/
def main_run (api_key endpoint deployment_name api_version : Option PyStr)
    (planStdout : Option PyStr) (outcome : HttpOutcome) (dateOut : PyStr) :
    MainResult :=
  let deployment := deployment_name.getD (lit "gpt-4")
  let version := api_version.getD (lit "2024-02-15-preview")
  if pyTruthyOpt api_key = false then
    { exitCode := some 0, planRequested := false, httpRequested := false
      saved := none, criticalWarned := false }
  else if pyTruthyOpt endpoint = false then
    { exitCode := some 0, planRequested := false, httpRequested := false
      saved := none, criticalWarned := false }
  else
    let ep := normalize_endpoint (endpoint.getD [])
    let plan_text := (planStdout.getD [])
    if plan_text.isEmpty then
      { exitCode := some 1, planRequested := true, httpRequested := false
        saved := none, criticalWarned := false }
    else
      let plan' := (main_truncate plan_text).1
      let resp := analyze_plan_with_azure_openai plan' (api_key.getD []) ep
                    deployment version outcome
      if jFalsy resp then
        { exitCode := some 1, planRequested := true, httpRequested := true
          saved := none, criticalWarned := false }
      else
        match format_analysis_output resp with
        | none =>
            { exitCode := none, planRequested := true, httpRequested := true
              saved := none, criticalWarned := false }
        | some formatted =>
            let savedText := save_analysis_content formatted dateOut
            match main_content_text resp with
            | none =>
                { exitCode := none, planRequested := true, httpRequested := true
                  saved := some savedText, criticalWarned := false }
            | some s =>
                { exitCode := some 0, planRequested := true, httpRequested := true
                  saved := some savedText, criticalWarned := critical_check s }

/-! ## Helper lemmas -/

/-- The test `pyInStr` decides substring occurrence. -/
lemma pyInStr_iff (needle hay : PyStr) :
    pyInStr needle hay = true ↔ ∃ p q, hay = p ++ needle ++ q := by
  unfold pyInStr
  rw [List.any_eq_true]
  constructor
  · rintro ⟨t, ht, hpre⟩
    rw [List.mem_tails] at ht
    rw [ List.isPrefixOf_iff_prefix] at hpre
    obtain ⟨r, rfl⟩ := hpre
    obtain ⟨w, hw⟩ := ht
    exact ⟨w, r, by rw [← hw]; simp⟩
  · rintro ⟨p, q, rfl⟩
    refine ⟨needle ++ q, ?_, ?_⟩
    · rw [List.mem_tails]; exact ⟨p, by simp⟩
    · rw [ List.isPrefixOf_iff_prefix]; exact ⟨q, rfl⟩

/-! ## Claim theorems -/

/-- C2: two calls to `analyze_plan_with_azure_openai` that differ only in the
`endpoint`, `deployment_name` and `api_version` arguments post to the same
request URL, which is the literal URL string, independent of those
parameters. -/
theorem request_url_independent_of_params
    (plan api_key e1 d1 v1 e2 d2 v2 : PyStr) :
    (build_request plan api_key e1 d1 v1).url
      = (build_request plan api_key e2 d2 v2).url ∧
    (build_request plan api_key e1 d1 v1).url = REQUEST_URL :=
  ⟨rfl, rfl⟩

/-- C7: for every plan text, the payload message list has exactly two entries,
the first with role `system` and the second with role `user`, and the plan
text occurs verbatim inside the user message content. -/
theorem payload_messages_shape (plan api_key endpoint dep ver : PyStr) :
    (build_request plan api_key endpoint dep ver).messages.length = 2 ∧
    (build_request plan api_key endpoint dep ver).messages.map ChatMessage.role
      = [lit "system", lit "user"] ∧
    ∃ pre post,
      (build_request plan api_key endpoint dep ver).messages.map ChatMessage.content
        = [SYSTEM_PROMPT, pre ++ plan ++ post] :=
  ⟨rfl, rfl, USER_PRE, USER_POST, rfl⟩

/-- C6: for plan text longer than 10,000 characters, `main` forwards exactly
the first 10,000 characters followed by the truncation marker, and prints the
truncation warning. -/
theorem main_truncate_long_plan (plan : PyStr) (h : plan.length > 10000) :
    (main_truncate plan).2 = true ∧
    ∃ head rest, plan = head ++ rest ∧ head.length = 10000 ∧
      (main_truncate plan).1 = head ++ TRUNC_MARKER := by
  refine ⟨by simp [main_truncate, h], plan.take 10000, plan.drop 10000,
    (List.take_append_drop _ _).symm, ?_, by simp [main_truncate, h]⟩
  rw [List.length_take]
  omega

/-- Witness for C6 at a concrete 10,001-character plan. -/
theorem main_truncate_long_plan_witness :
    (main_truncate (List.replicate 10001 'a')).2 = true :=
  (main_truncate_long_plan (List.replicate 10001 'a')
    (by rw [List.length_replicate]; omega)).1

/-- C5 (amended): on a network exception, or on an HTTP status in the
400-599 range (where `raise_for_status` raises and the handler catches),
`analyze_plan_with_azure_openai` returns the empty mapping; being a total
function, it never lets an exception propagate. -/
theorem analyze_failure_returns_empty
    (plan api_key ep dep ver : PyStr) (outcome : HttpOutcome)
    (h : outcome = .exn ∨
      ∃ status body, outcome = .response status body ∧ 400 ≤ status ∧ status ≤ 599) :
    analyze_plan_with_azure_openai plan api_key ep dep ver outcome = .jobj [] := by
  rcases h with rfl | ⟨s, b, rfl, h1, h2⟩
  · rfl
  · simp [analyze_plan_with_azure_openai, h1, h2]

/-- Witness for C5 at a concrete 404 response carrying a JSON body. -/
theorem analyze_failure_returns_empty_witness :
    analyze_plan_with_azure_openai [] [] [] [] []
      (.response 404 (some (.jobj [(lit "ok", .jbool true)]))) = .jobj [] :=
  analyze_failure_returns_empty [] [] [] [] [] _
    (Or.inr ⟨404, some (.jobj [(lit "ok", .jbool true)]), rfl, by omega, by omega⟩)

/-- Counterexample to C5 as stated: a 301 response is non-2xx, yet
`raise_for_status` does not raise for it, so the parsed (non-empty) body is
returned rather than the empty mapping. -/
theorem analyze_nonfatal_3xx_counterexample :
    analyze_plan_with_azure_openai [] [] [] [] []
        (.response 301 (some (.jobj [(lit "ok", .jbool true)])))
      = .jobj [(lit "ok", .jbool true)] ∧
    jFalsy (.jobj [(lit "ok", .jbool true)]) = false :=
  ⟨rfl, rfl⟩

/-- C8: if the credential or the endpoint environment variable is unset or
empty, `main` returns 0 without invoking `terraform` and without issuing the
HTTP request. -/
theorem missing_config_exits_zero
    (api_key endpoint dep ver : Option PyStr)
    (planStdout : Option PyStr) (outcome : HttpOutcome) (dateOut : PyStr)
    (h : pyTruthyOpt api_key = false ∨ pyTruthyOpt endpoint = false) :
    main_run api_key endpoint dep ver planStdout outcome dateOut =
      { exitCode := some 0, planRequested := false, httpRequested := false
        saved := none, criticalWarned := false } := by
  rcases h with h | h
  · simp [main_run, h]
  · by_cases hk : pyTruthyOpt api_key = false
    · simp [main_run, hk]
    · simp [main_run, hk, h]

/-- Witness for C8 with the credential variable unset. -/
theorem missing_config_exits_zero_witness :
    main_run none (some (lit "e")) none none (some (lit "p")) .exn [] =
      { exitCode := some 0, planRequested := false, httpRequested := false
        saved := none, criticalWarned := false } :=
  missing_config_exits_zero none (some (lit "e")) none none (some (lit "p"))
    .exn [] (Or.inl rfl)

/-- C1 (amended): `format_analysis_output` returns the failure marker exactly
when the response is falsy or lacks the `choices` key; when `choices` is
present but the nested access `choices[0].message.content` fails (empty
choices list, or a missing `message`/`content` field), the function raises
(modelled `none`) instead of returning the marker. -/
theorem format_output_shape (resp : JVal) :
    ((jFalsy resp = true ∨ pyContains resp (lit "choices") = some false) →
      format_analysis_output resp = some FAIL_MARKER) ∧
    (jFalsy resp = false → pyContains resp (lit "choices") = some true →
      choices_content_path resp = none → format_analysis_output resp = none) := by
  constructor
  · rintro (h | h)
    · simp [format_analysis_output, h]
    · by_cases hf : jFalsy resp = true
      · simp [format_analysis_output, hf]
      · simp [format_analysis_output, hf, h]
  · intro h0 h1 h2
    simp [format_analysis_output, h0, h1, h2]

/-- Witness for C1 at the response `{"choices": []}`: the function raises. -/
theorem format_output_shape_witness :
    format_analysis_output (.jobj [(lit "choices", .jarr [])]) = none :=
  (format_output_shape (.jobj [(lit "choices", .jarr [])])).2 rfl rfl rfl

/-- Counterexample to C1 as stated: the response `{"choices": []}` has a
`choices` key with an empty list, and `format_analysis_output` raises an
`IndexError` on it (modelled `none`) instead of returning the failure
marker. -/
theorem format_empty_choices_raises :
    format_analysis_output (.jobj [(lit "choices", .jarr [])]) ≠ some FAIL_MARKER ∧
    pyContains (.jobj [(lit "choices", .jarr [])]) (lit "choices") = some true := by
  constructor
  · intro h
    have hn : format_analysis_output (.jobj [(lit "choices", .jarr [])]) = none := rfl
    simp [hn] at h
  · rfl

/-- A string not ending in a slash is unchanged by `rstrip('/')`. -/
lemma rstrip_of_not_slash_suffix (x : PyStr) (h : ¬ (lit "/").isSuffixOf x = true) :
    pyRstripSlash x = x := by
  have hlit : lit "/" = ['/'] := rfl
  unfold pyRstripSlash
  unfold List.isSuffixOf at h
  rw [hlit] at h
  cases hrev : x.reverse with
  | nil =>
      simp only [List.dropWhile_nil, List.reverse_nil]
      exact (List.reverse_eq_nil_iff.mp hrev).symm
  | cons c t =>
      simp only [List.dropWhile_cons]
      by_cases hcc : (c == '/') = true
      · exfalso
        apply h
        have hc : c = '/' := by simpa using hcc
        subst hc
        simp only [ List.isPrefixOf_iff_prefix, List.reverse_singleton]
        rw [hrev]
        exact ⟨t, rfl⟩
      · simp only [Bool.not_eq_true] at hcc
        rw [hcc]
        simp only [Bool.false_eq_true, if_false]
        have := congrArg List.reverse hrev
        simpa using this.symm

/-- The trailing-slash branch of `normalize_endpoint` computes `rstrip('/')`
whether or not the guard fires. -/
lemma rstrip_guard (x : PyStr) :
    (if (lit "/").isSuffixOf x = true then pyRstripSlash x else x) = pyRstripSlash x := by
  by_cases h : (lit "/").isSuffixOf x = true
  · rw [if_pos h]
  · rw [if_neg h, rstrip_of_not_slash_suffix x h]

/-- Modelled from the amended wording of C3: prepend `https://` exactly when
the value does not already start with `https://`, then remove every trailing
slash. -/
def normalize_endpoint_spec (endpoint : PyStr) : PyStr :=
  pyRstripSlash (if (lit "https://").isPrefixOf endpoint then endpoint
                 else lit "https://" ++ endpoint)

/-- C3 (amended): the endpoint normalisation of `main` prepends `https://`
exactly when the value does not already start with `https://` — an endpoint
starting with any other scheme, such as `http://`, is prefixed again — and
removes every trailing slash. -/
theorem normalize_endpoint_characterisation (e : PyStr) :
    normalize_endpoint e = normalize_endpoint_spec e := by
  unfold normalize_endpoint normalize_endpoint_spec
  exact rstrip_guard _

/-- Counterexample to C3 as stated: an endpoint that already carries the
`http://` scheme is prefixed again. -/
theorem normalize_http_scheme_counterexample :
    normalize_endpoint (lit "http://example.com") = lit "https://http://example.com" := by
  decide

/-- C9: the critical-issue warning fires exactly when the lower-cased content
contains one of the five fixed keywords; in particular any occurrence of
`Security Vulnerability` (in any letter case of this ASCII phrase, via the
lower-casing) triggers it, and content containing none of the keywords does
not. -/
theorem critical_keyword_scan (content : PyStr) :
    (critical_check content = true ↔
      ∃ kw ∈ CRITICAL_KEYWORDS, ∃ p q, pyLower content = p ++ kw ++ q) ∧
    (∀ p q, content = p ++ lit "Security Vulnerability" ++ q →
      critical_check content = true) := by
  constructor
  · unfold critical_check
    rw [List.any_eq_true]
    constructor
    · rintro ⟨kw, hm, hin⟩
      exact ⟨kw, hm, (pyInStr_iff _ _).mp hin⟩
    · rintro ⟨kw, hm, h⟩
      exact ⟨kw, hm, (pyInStr_iff _ _).mpr h⟩
  · rintro p q rfl
    unfold critical_check
    rw [List.any_eq_true]
    refine ⟨lit "security vulnerability", by decide, ?_⟩
    rw [pyInStr_iff]
    refine ⟨pyLower p, pyLower q, ?_⟩
    unfold pyLower
    have hsv : List.map Char.toLower (lit "Security Vulnerability")
        = lit "security vulnerability" := by decide
    rw [List.map_append, List.map_append, hsv]

/-- Witness for C9: mixed-case `Security Vulnerability` triggers the scan. -/
theorem critical_keyword_scan_witness :
    critical_check (lit "a Security Vulnerability b") = true :=
  (critical_keyword_scan (lit "a Security Vulnerability b")).2
    (lit "a ") (lit " b") (by decide)

/-- The test `pyInStr` is `false` exactly for non-substrings. -/
lemma pyInStr_false_iff (needle hay : PyStr) :
    pyInStr needle hay = false ↔ ¬ ∃ p q, hay = p ++ needle ++ q := by
  rw [← pyInStr_iff]
  cases h : pyInStr needle hay <;> simp

/-- A boolean that is not `true` is `false`. -/
lemma bool_eq_false_of_not_true {b : Bool} (h : ¬ b = true) : b = false := by
  cases b
  · rfl
  · exact absurd rfl h

/-- A mismatch at the first character refutes `isPrefixOf`. -/
lemma isPrefixOf_cons_ne {a b : Char} (as bs : List Char) (h : ¬ a = b) :
    (a :: as).isPrefixOf (b :: bs) = false := by
  by_cases hp : (a :: as).isPrefixOf (b :: bs) = true
  · exfalso
    rw [ List.isPrefixOf_iff_prefix] at hp
    obtain ⟨r, hr⟩ := hp
    exact h (List.head_eq_of_cons_eq hr)
  · exact bool_eq_false_of_not_true hp

/-- The scan `replaceGo` leaves a string without occurrences of the pattern
unchanged, for any fuel. -/
lemma replaceGo_no_occ (old new : PyStr) :
    ∀ fuel s, (¬ ∃ p q, s = p ++ old ++ q) → replaceGo old new fuel s = s := by
  intro fuel
  induction fuel with
  | zero => intro s _; cases s <;> rfl
  | succ f ih =>
      intro s h
      cases s with
      | nil => rfl
      | cons c rest =>
          have hred : replaceGo old new (f + 1) (c :: rest)
              = if old.isPrefixOf (c :: rest) then
                  new ++ replaceGo old new f (rest.drop (old.length - 1))
                else c :: replaceGo old new f rest := rfl
          rw [hred]
          have hpre : old.isPrefixOf (c :: rest) = false := by
            by_cases hp : old.isPrefixOf (c :: rest) = true
            · exfalso
              rw [ List.isPrefixOf_iff_prefix] at hp
              obtain ⟨r, hr⟩ := hp
              exact h ⟨[], r, by rw [← hr]; rfl⟩
            · exact bool_eq_false_of_not_true hp
          rw [hpre]
          simp only [Bool.false_eq_true, if_false]
          congr 1
          apply ih
          rintro ⟨p, q, hpq⟩
          exact h ⟨c :: p, q, by rw [hpq]; rfl⟩

/-- The scan of `replaceGo` on `p ++ old ++ q` replaces exactly the marked
occurrence when no occurrence starts inside `p` and none lies in `q`. -/
lemma replaceGo_decomp (old new q : PyStr)
    (hq : ¬ ∃ p' q', q = p' ++ old ++ q') (hold : old ≠ []) :
    ∀ p fuel, (p ++ old ++ q).length ≤ fuel →
      (∀ p₁ p₂, p = p₁ ++ p₂ → p₂ ≠ [] →
        old.isPrefixOf (p₂ ++ old ++ q) = false) →
      replaceGo old new fuel (p ++ old ++ q) = p ++ new ++ q := by
  intro p
  induction p with
  | nil =>
      intro fuel hlen hp
      cases hO : old with
      | nil => exact absurd hO hold
      | cons o ot =>
          subst hO
          cases fuel with
          | zero =>
              exfalso
              simp [List.length_append] at hlen
          | succ f =>
              have hshape : ([] : PyStr) ++ (o :: ot) ++ q = o :: (ot ++ q) := by simp
              rw [hshape]
              have hred : replaceGo (o :: ot) new (f + 1) (o :: (ot ++ q))
                  = if (o :: ot).isPrefixOf (o :: (ot ++ q)) then
                      new ++ replaceGo (o :: ot) new f
                        ((ot ++ q).drop ((o :: ot).length - 1))
                    else o :: replaceGo (o :: ot) new f (ot ++ q) := rfl
              rw [hred]
              have hpre : (o :: ot).isPrefixOf (o :: (ot ++ q)) = true := by
                rw [ List.isPrefixOf_iff_prefix]
                exact ⟨q, by simp⟩
              rw [hpre, if_pos rfl]
              have hdrop : (ot ++ q).drop ((o :: ot).length - 1) = q := by
                simp only [List.length_cons, Nat.add_sub_cancel]
                exact List.drop_left ot q
              rw [hdrop, replaceGo_no_occ (o :: ot) new f q hq]
              simp
  | cons a p' ih =>
      intro fuel hlen hp
      cases fuel with
      | zero =>
          exfalso
          simp [List.length_append] at hlen
      | succ f =>
          have hshape : (a :: p') ++ old ++ q = a :: (p' ++ old ++ q) := by simp
          rw [hshape]
          have hred : replaceGo old new (f + 1) (a :: (p' ++ old ++ q))
              = if old.isPrefixOf (a :: (p' ++ old ++ q)) then
                  new ++ replaceGo old new f
                    ((p' ++ old ++ q).drop (old.length - 1))
                else a :: replaceGo old new f (p' ++ old ++ q) := rfl
          rw [hred]
          have hpre : old.isPrefixOf (a :: (p' ++ old ++ q)) = false := by
            have h0 := hp [] (a :: p') rfl (by simp)
            simpa using h0
          rw [hpre]
          simp only [Bool.false_eq_true, if_false]
          have hlen' : (p' ++ old ++ q).length ≤ f := by
            rw [hshape] at hlen
            simpa using Nat.le_of_succ_le_succ hlen
          rw [ih f hlen' (fun p₁ p₂ he hne => hp (a :: p₁) p₂ (by rw [he]; rfl) hne)]
          rfl

/-- The function `pyReplace` leaves a string without occurrences of the pattern
unchanged. -/
lemma pyReplace_no_occ (s old new : PyStr) (h : ¬ ∃ p q, s = p ++ old ++ q) :
    pyReplace s old new = s := by
  have hold : old ≠ [] := by
    rintro rfl
    exact h ⟨[], s, by simp⟩
  unfold pyReplace
  rw [if_neg (by simpa [List.isEmpty_iff] using hold)]
  exact replaceGo_no_occ old new s.length s h

/-- The function `pyReplace` on `p ++ old ++ q` removes exactly the marked occurrence
when no occurrence starts inside `p` and none lies in `q`. -/
lemma pyReplace_decomp (old new p q : PyStr) (hold : old ≠ [])
    (hq : ¬ ∃ p' q', q = p' ++ old ++ q')
    (hp : ∀ p₁ p₂, p = p₁ ++ p₂ → p₂ ≠ [] →
      old.isPrefixOf (p₂ ++ old ++ q) = false) :
    pyReplace (p ++ old ++ q) old new = p ++ new ++ q := by
  unfold pyReplace
  rw [if_neg (by simpa [List.isEmpty_iff] using hold)]
  exact replaceGo_decomp old new q hq hold p _ le_rfl hp

/-- C10 (amended): for a response whose `choices[0].message.content` is a
string `c`, stripping the formatted output recovers the single leading
newline followed by `c`, provided the banner does not occur in `c ++ footer`
(ruling out occurrences inside `c` and occurrences straddling the boundary
between `c` and the footer) and the footer occurs nowhere except as the
terminal suffix (no occurrence inside the wrapped string minus its final
character). -/
theorem format_strip_roundtrip (c : PyStr) (resp : JVal)
    (h0 : jFalsy resp = false)
    (h1 : pyContains resp (lit "choices") = some true)
    (h2 : choices_content_path resp = some (.jstr c))
    (hB : pyInStr BANNER (c ++ FOOTER) = false)
    (hF : pyInStr FOOTER ((('\n' :: c) ++ FOOTER).dropLast) = false) :
    ∃ w, format_analysis_output resp = some w ∧ strip_formatting w = '\n' :: c := by
  refine ⟨'\n' :: (BANNER ++ c ++ FOOTER), ?_, ?_⟩
  · simp [format_analysis_output, h0, h1, h2, pyStrOf]
  · have hBne : BANNER ≠ [] := by decide
    have hFne : FOOTER ≠ [] := by decide
    have hq1 : ¬ ∃ p' q', c ++ FOOTER = p' ++ BANNER ++ q' :=
      (pyInStr_false_iff _ _).mp hB
    have hp1 : ∀ p₁ p₂, ['\n'] = p₁ ++ p₂ → p₂ ≠ [] →
        BANNER.isPrefixOf (p₂ ++ BANNER ++ (c ++ FOOTER)) = false := by
      intro p₁ p₂ he hne
      have hsplit : p₂ = ['\n'] := by
        cases p₁ with
        | nil => simpa using he.symm
        | cons x xs =>
            exfalso
            rw [List.cons_append] at he
            injection he with hx htl
            exact hne (List.append_eq_nil.mp htl.symm).2
      subst hsplit
      have hshape : (['\n'] : PyStr) ++ BANNER ++ (c ++ FOOTER)
          = '\n' :: (BANNER ++ (c ++ FOOTER)) := rfl
      rw [hshape]
      have hBe : BANNER
          = '#' :: lit "#[section]\uF8FFü§ñ AI-Powered Terraform Plan Analysis\n\n" := rfl
      rw [hBe]
      exact isPrefixOf_cons_ne _ _ (by decide)
    have hq2 : ¬ ∃ p' q', ([] : PyStr) = p' ++ FOOTER ++ q' := by
      rintro ⟨p', q', he⟩
      have h4 := List.append_eq_nil.mp he.symm
      exact hFne (List.append_eq_nil.mp h4.1).2
    have hFd : ¬ ∃ p q, (('\n' :: c) ++ FOOTER).dropLast = p ++ FOOTER ++ q :=
      (pyInStr_false_iff _ _).mp hF
    have hp2 : ∀ p₁ p₂, '\n' :: c = p₁ ++ p₂ → p₂ ≠ [] →
        FOOTER.isPrefixOf (p₂ ++ FOOTER ++ []) = false := by
      intro p₁ p₂ he hne
      by_cases hx : FOOTER.isPrefixOf (p₂ ++ FOOTER ++ []) = true
      · exfalso
        rw [ List.isPrefixOf_iff_prefix] at hx
        simp only [List.append_nil] at hx
        obtain ⟨r, hr⟩ := hx
        have hrlen : r.length = p₂.length := by
          have h3 := congrArg List.length hr
          simp only [List.length_append] at h3
          omega
        have hrne : r ≠ [] := by
          intro hr0
          subst hr0
          simp only [List.length_nil] at hrlen
          exact hne (List.eq_nil_of_length_eq_zero hrlen.symm)
        have hwhole : ('\n' :: c) ++ FOOTER = (p₁ ++ FOOTER) ++ r := by
          rw [he, List.append_assoc, ← hr, ← List.append_assoc]
        have hdl : (('\n' :: c) ++ FOOTER).dropLast = p₁ ++ FOOTER ++ r.dropLast := by
          rw [hwhole, List.dropLast_append_of_ne_nil _ hrne, List.append_assoc]
        exact hFd ⟨p₁, r.dropLast, by rw [hdl, List.append_assoc]⟩
      · exact bool_eq_false_of_not_true hx
    unfold strip_formatting
    have e1 : ('\n' :: (BANNER ++ c ++ FOOTER)) = ['\n'] ++ BANNER ++ (c ++ FOOTER) := by
      simp
    rw [e1, pyReplace_decomp BANNER [] ['\n'] (c ++ FOOTER) hBne hq1 hp1]
    have e2 : (['\n'] : PyStr) ++ [] ++ (c ++ FOOTER) = ('\n' :: c) ++ FOOTER ++ [] := by
      simp
    rw [e2, pyReplace_decomp FOOTER [] ('\n' :: c) [] hFne hq2 hp2]
    simp

/-- Witness for C10 at the content `hello`. -/
theorem format_strip_roundtrip_witness :
    ∃ w,
      format_analysis_output
        (.jobj [(lit "choices",
          .jarr [.jobj [(lit "message",
            .jobj [(lit "content", .jstr (lit "hello"))])]])]) = some w ∧
      strip_formatting w = '\n' :: lit "hello" :=
  format_strip_roundtrip (lit "hello")
    (.jobj [(lit "choices",
      .jarr [.jobj [(lit "message",
        .jobj [(lit "content", .jstr (lit "hello"))])]])])
    rfl rfl rfl (by decide) (by decide)

/-- Content used by the counterexample to C10: it contains neither the banner
nor the footer, but it ends with the banner minus its two trailing newlines,
so that wrapping creates a second banner occurrence straddling the boundary
between the content and the footer. -/
def roundtrip_cx_content : PyStr :=
  lit "X##[section]\uF8FFü§ñ AI-Powered Terraform Plan Analysis"

/-- Response mapping used by the counterexample to C10. -/
def roundtrip_cx_resp : JVal :=
  .jobj [(lit "choices",
    .jarr [.jobj [(lit "message",
      .jobj [(lit "content", .jstr roundtrip_cx_content)])]])]

set_option maxRecDepth 40000 in
/-- Counterexample to C10 as stated: the content contains neither the banner
nor the footer, formatting wraps it as usual, yet stripping the wrapped
string does not return newline-plus-content, because the first `replace`
also consumes a banner occurrence that straddles the content/footer
boundary. -/
theorem format_strip_roundtrip_counterexample :
    pyInStr BANNER roundtrip_cx_content = false ∧
    pyInStr FOOTER roundtrip_cx_content = false ∧
    format_analysis_output roundtrip_cx_resp
      = some ('\n' :: (BANNER ++ roundtrip_cx_content ++ FOOTER)) ∧
    strip_formatting ('\n' :: (BANNER ++ roundtrip_cx_content ++ FOOTER))
      ≠ '\n' :: roundtrip_cx_content := by
  refine ⟨rfl, rfl, rfl, by decide⟩

/-- C4: when the plain content (after banner/footer stripping) exceeds
`4000 - header_length`, the persisted text is the timestamped header followed
by a prefix of the plain content and the truncation notice, and its total
length is at most 4000 characters.  The side condition bounds the header by
3950 characters, which any real `date` output satisfies; it guarantees the
Python slice bound `max_content_length - 50` is non-negative. -/
theorem save_truncates_to_limit (analysis dateOut : PyStr)
    (h1 : ((strip_formatting analysis).length : Int)
      > 4000 - ((mk_header dateOut).length : Int))
    (h2 : (mk_header dateOut).length + 50 ≤ 4000) :
    (save_analysis_content analysis dateOut).length ≤ 4000 ∧
    ∃ t rest, strip_formatting analysis = t ++ rest ∧
      save_analysis_content analysis dateOut
        = mk_header dateOut ++ t ++ TRUNC_NOTICE := by
  have hsave : save_analysis_content analysis dateOut
      = mk_header dateOut ++
        (pySliceTo (strip_formatting analysis)
          (4000 - ((mk_header dateOut).length : Int) - 50) ++ TRUNC_NOTICE) := by
    unfold save_analysis_content
    dsimp only
    rw [if_pos h1]
  have hk : (0 : Int) ≤ 4000 - ((mk_header dateOut).length : Int) - 50 := by omega
  have hslice : pySliceTo (strip_formatting analysis)
      (4000 - ((mk_header dateOut).length : Int) - 50)
      = (strip_formatting analysis).take (3950 - (mk_header dateOut).length) := by
    have htn : (4000 - ((mk_header dateOut).length : Int) - 50).toNat
        = 3950 - (mk_header dateOut).length := by omega
    unfold pySliceTo
    rw [if_pos hk, htn]
  have hsave2 : save_analysis_content analysis dateOut
      = mk_header dateOut ++
        ((strip_formatting analysis).take (3950 - (mk_header dateOut).length)
          ++ TRUNC_NOTICE) := by
    rw [hsave, hslice]
  have htake : ((strip_formatting analysis).take
      (3950 - (mk_header dateOut).length)).length
      = 3950 - (mk_header dateOut).length := by
    rw [List.length_take]
    omega
  have hnotice : TRUNC_NOTICE.length = 49 := by decide
  constructor
  · rw [hsave2]
    simp only [List.length_append, htake, hnotice]
    omega
  · refine ⟨(strip_formatting analysis).take (3950 - (mk_header dateOut).length),
      (strip_formatting analysis).drop (3950 - (mk_header dateOut).length),
      (List.take_append_drop _ _).symm, ?_⟩
    rw [hsave2, ← List.append_assoc]

/-- Witness for C4 at 3990 characters of content and a one-character date. -/
theorem save_truncates_to_limit_witness :
    (save_analysis_content (List.replicate 3990 'a') (lit "D")).length ≤ 4000 := by
  have hnbB : ¬ ∃ p q, (List.replicate 3990 'a' : PyStr) = p ++ BANNER ++ q := by
    rintro ⟨p, q, he⟩
    have hm : '#' ∈ (List.replicate 3990 'a' : PyStr) := by
      rw [he]
      have : '#' ∈ BANNER := by decide
      simp [this]
    exact absurd ((List.mem_replicate.mp hm).2) (by decide)
  have hnbF : ¬ ∃ p q, (List.replicate 3990 'a' : PyStr) = p ++ FOOTER ++ q := by
    rintro ⟨p, q, he⟩
    have hm : '\n' ∈ (List.replicate 3990 'a' : PyStr) := by
      rw [he]
      have : '\n' ∈ FOOTER := by decide
      simp [this]
    exact absurd ((List.mem_replicate.mp hm).2) (by decide)
  have hstripA : strip_formatting (List.replicate 3990 'a') = List.replicate 3990 'a' := by
    unfold strip_formatting
    rw [pyReplace_no_occ _ BANNER [] hnbB, pyReplace_no_occ _ FOOTER [] hnbF]
  have hhdr : (mk_header (lit "D")).length = 39 := by decide
  exact (save_truncates_to_limit (List.replicate 3990 'a') (lit "D")
    (by rw [hstripA, List.length_replicate, hhdr]; omega)
    (by rw [hhdr]; omega)).1
